import Mathlib

/-!
Verification of the makobot agent toolbelt against its specification.

The embedding models `agent/tools/shell.py` (pipeline splitting, shlex-style
tokenization, whitelist validation, process spawning and output aggregation),
`agent/tools/reliability.py` (`record_tool_reliability`) and
`agent/tools/memory.py` (`write_memory_file`).

Python strings are Lean `String`s, floats are rationals, dictionaries are
association lists, and process side effects are made observable through an
explicit world (mapping an argument vector to the behavior of the spawned
process) together with a trace of every spawned argument vector.
-/

deriving instance DecidableEq for Except

/-- Whitespace characters recognized by the POSIX shlex lexer
(`shlex.whitespace = " \t\r\n"`). -/
def shlexIsWS (c : Char) : Bool :=
  c = ' ' || c = '\t' || c = '\n' || c = '\r'

/-- Lexer state of the POSIX shlex state machine: outside any quote, inside a
quote opened by `q`, or right after a backslash (`ret` is the quote to return
to, `none` when the backslash occurred outside quotes). -/
inductive LexSt where
  | out : LexSt
  | quo (q : Char) : LexSt
  | esc (ret : Option Char) : LexSt
deriving Repr, DecidableEq

/-- Core state machine of Python `shlex.split` in POSIX mode with
`whitespace_split=True`: `inTok` records whether a token is in progress (a
closed pair of quotes yields a token even when empty), `cur` is the token
being built, `toks` the tokens already produced.  End of input inside a quote
raises `ValueError("No closing quotation")`; end of input right after a
backslash raises `ValueError("No escaped character")`. -/
def shlexCore : List Char → LexSt → Bool → List Char → List String →
    Except String (List String)
  | [], .out, inTok, cur, toks =>
      .ok (if inTok then toks ++ [cur.asString] else toks)
  | [], .quo _, _, _, _ => .error "No closing quotation"
  | [], .esc _, _, _, _ => .error "No escaped character"
  | c :: rest, .out, inTok, cur, toks =>
      if shlexIsWS c then
        if inTok then shlexCore rest .out false [] (toks ++ [cur.asString])
        else shlexCore rest .out false [] toks
      else if c = '\'' || c = '"' then shlexCore rest (.quo c) true cur toks
      else if c = '\\' then shlexCore rest (.esc none) true cur toks
      else shlexCore rest .out true (cur ++ [c]) toks
  | c :: rest, .quo q, _, cur, toks =>
      if c = q then shlexCore rest .out true cur toks
      else if q = '"' && c = '\\' then shlexCore rest (.esc (some q)) true cur toks
      else shlexCore rest (.quo q) true (cur ++ [c]) toks
  | c :: rest, .esc ret, _, cur, toks =>
      match ret with
      | none => shlexCore rest .out true (cur ++ [c]) toks
      | some q =>
          if c = q || c = '\\' then shlexCore rest (.quo q) true (cur ++ [c]) toks
          else shlexCore rest (.quo q) true (cur ++ ['\\', c]) toks

/-- Python `shlex.split(s)` (POSIX mode): shell-style quote-aware
tokenization, `.error` for the `ValueError` raised on malformed input. -/
def shlexSplit (s : String) : Except String (List String) :=
  shlexCore s.data .out false [] []

/-- Python `s.startswith(pre)`: `pre` is a prefix of the character sequence. -/
def pyStartsWith (s pre : String) : Bool :=
  pre.data.isPrefixOf s.data

/-- Whitespace characters stripped by Python `str.strip()` (ASCII range). -/
def pyIsSpace (c : Char) : Bool :=
  c = ' ' || c = '\t' || c = '\n' || c = '\r' || c = '\x0b' || c = '\x0c'

/-- Python `s.strip()`. -/
def pyStrip (s : String) : String :=
  (((s.data.dropWhile pyIsSpace).reverse.dropWhile pyIsSpace).reverse).asString

/-- Helper for `pySplitPipe`: accumulates the current segment. -/
def splitPipeCore : List Char → List Char → List String
  | [], cur => [cur.asString]
  | c :: rest, cur =>
      if c = '|' then cur.asString :: splitPipeCore rest []
      else splitPipeCore rest (cur ++ [c])

/-- Python `cmd.split("|")`: split on every pipe character, keeping empty
segments (so `"|".split("|") == ["", ""]`). -/
def pySplitPipe (s : String) : List String :=
  splitPipeCore s.data []

/-- `ALLOWED_PREFIXES` from `agent/tools/shell.py`. -/
def ALLOWED_PREFIXES : List String :=
  ["ls", "dir", "tree", "find", "grep", "rg", "cat", "head", "tail", "wc",
   "git status", "git diff", "git log", "git branch", "git remote",
   "echo", "pwd", "date"]

/-- Behavior of the operating-system process a given argument vector would
spawn: the text it writes to its standard output, the text it writes to its
standard error, its exit status, and its running time. -/
structure ProcSpec where
  stdout : String
  stderr : String
  exit : Int
  time : Nat
deriving Repr, DecidableEq

/-- The process world: what `subprocess.Popen(args, ...)` spawns for each
argument vector; `none` means the program does not exist and `Popen` raises
`FileNotFoundError`. -/
def World : Type := List String → Option ProcSpec

/-- A spawned process: its `args` (as stored by `Popen` in `p.args`) and its
behavior. -/
structure Proc where
  args : List String
  spec : ProcSpec
deriving Repr, DecidableEq

/-- The Python exceptions that the shell tool raises or handles. -/
inductive PyErr where
  | valueError (msg : String) : PyErr
  | calledProcessError (returncode : Int) (cmd : String)
      (stdout stderr : Option String) : PyErr
  | timeoutExpired (cmd : String) : PyErr
  | fileNotFound (filename : String) : PyErr
  | indexError : PyErr
deriving Repr, DecidableEq

/-- The per-stage loop of `run_pipeline`: for each pipe segment, tokenize it
with shlex (a `ValueError` propagates), skip it when it tokenizes to no
arguments (`continue`), check `args[0].strip().startswith(prefix)` against
the whitelist and raise `ValueError` on failure, then spawn the process.
Returns the processes created together with the trace of every argument
vector actually spawned; on an exception the trace keeps the processes
spawned before it (the loop has already created them).  The pipe wiring of
`stdin`/`stdout` between consecutive stages is not observable in this model
and is not represented. -/
def spawnLoop (w : World) : List String → List Proc → List (List String) →
    Except PyErr (List Proc) × List (List String)
  | [], procs, trace => (.ok procs, trace)
  | part :: rest, procs, trace =>
      match shlexSplit part with
      | .error m => (.error (.valueError m), trace)
      | .ok [] => spawnLoop w rest procs trace
      | .ok (a0 :: args) =>
          if ALLOWED_PREFIXES.any (fun p => pyStartsWith (pyStrip a0) p) then
            match w (a0 :: args) with
            | none => (.error (.fileNotFound a0), trace)
            | some sp =>
                spawnLoop w rest (procs ++ [⟨a0 :: args, sp⟩])
                  (trace ++ [a0 :: args])
          else
            (.error (.valueError ("Command '" ++ a0 ++ "' is not allowed")), trace)

/-- Output collection of `run_pipeline`: for each process,
`stdout, stderr = p.communicate()` — `stdout` is the captured text, while
`stderr` is `None` because `Popen` was called without `stderr=subprocess.PIPE`,
so the `if stderr:` branch that would prepend the `"Error: "` marker can
never run. -/
def aggregateOutput (procs : List Proc) : String :=
  procs.foldl (fun output p =>
    let stdout := p.spec.stdout
    let stderr : Option String := none
    let output := if stdout ≠ "" then output ++ stdout else output
    match stderr with
    | some s => if s ≠ "" then output ++ "Error: " ++ s else output
    | none => output) ""

/-- The first process in the list with a non-zero return code, if any. -/
def firstFailing : List Proc → Option Proc
  | [] => none
  | p :: ps => if p.spec.exit ≠ 0 then some p else firstFailing ps

/-- `run_pipeline(cmd)` from `agent/tools/shell.py`: split on `|`, strip each
part, run the spawn loop, collect output, then raise
`CalledProcessError(p.returncode, " ".join(p.args))` for the first process
with non-zero status.  `communicate()` is called without a `timeout`
argument, so it waits for however long the process runs and never raises
`TimeoutExpired`.  The second component is the spawn trace. -/
def run_pipeline (w : World) (cmd : String) :
    Except PyErr String × List (List String) :=
  let parts := (pySplitPipe cmd).map pyStrip
  match spawnLoop w parts [] [] with
  | (.error e, trace) => (.error e, trace)
  | (.ok procs, trace) =>
      let output := aggregateOutput procs
      match firstFailing procs with
      | some p =>
          (.error (.calledProcessError p.spec.exit
            (String.intercalate " " p.args) none none), trace)
      | none => (.ok output, trace)

/-- Python `a or b` on optional strings (`None` and `""` are falsy). -/
def pyOrOpt : Option String → Option String → Option String
  | some s, b => if s = "" then b else some s
  | none, b => b

/-- Python string interpolation of a value that may be `None`. -/
def fmtOpt : Option String → String
  | none => "None"
  | some s => s

/-- The refusal message built by `run_safe_shell` for a non-whitelisted
command. -/
def notAllowedMsg (cmd : String) : String :=
  "Error: Command not allowed for safety reasons.\n" ++
  "Allowed prefixes: " ++ String.intercalate ", " ALLOWED_PREFIXES ++ "\n" ++
  "Attempted: " ++ cmd

/-- `run_safe_shell(cmd)` from `agent/tools/shell.py`.  An `.ok` result is
the string the function returns to its caller; an `.error` result is an
exception escaping the function uncaught.  Note that
`first_word = shlex.split(cmd)[0]` runs before the `try` block, so a shlex
`ValueError` raised there is uncaught.  The second component is the spawn
trace. -/
def run_safe_shell (w : World) (cmd : String) :
    Except PyErr String × List (List String) :=
  if pyStrip cmd = "" then (.ok "Error: empty command", [])
  else
    match shlexSplit cmd with
    | .error m => (.error (.valueError m), [])
    | .ok [] => (.error .indexError, [])
    | .ok (first_word :: _) =>
        if ALLOWED_PREFIXES.any (fun p => pyStartsWith (pyStrip cmd) p) then
          match run_pipeline w cmd with
          | (.ok result, trace) =>
              let output := "output: " ++ result ++ "\n"
              (.ok (if output ≠ "" then output else "(no output)"), trace)
          | (.error (.timeoutExpired _), trace) =>
              (.ok ("Command timed out after 10 seconds: " ++ cmd), trace)
          | (.error (.calledProcessError _ _ stdout stderr), trace) =>
              (.ok ("Execution error:\n" ++ fmtOpt (pyOrOpt stderr stdout)), trace)
          | (.error (.fileNotFound _), trace) =>
              (.ok ("Command not found: " ++ first_word), trace)
          | (.error (.valueError m), trace) =>
              (.ok ("Unexpected shell error: " ++ m), trace)
          | (.error .indexError, trace) =>
              (.ok "Unexpected shell error: list index out of range", trace)
        else (.ok (notAllowedMsg cmd), [])

/-- A world in which only `ls` exists: it prints nothing, writes no error
text, exits 0 and runs for 1 time unit. -/
def wLs : World := fun args =>
  if args = ["ls"] then some ⟨"", "", 0, 1⟩ else none

/-- A world with no programs at all. -/
def wEmpty : World := fun _ => none

/-- What `p.communicate(timeout=t)` would decide if a timeout were passed:
`TimeoutExpired` is raised when the process runs longer than `t`.
`run_pipeline` never passes a timeout, so this predicate is never consulted
by the model of the code. -/
def communicateWouldTimeout (t : Nat) (sp : ProcSpec) : Bool :=
  t < sp.time

/-- A world in which `ls` exists, prints `slow-out`, exits 0 and runs for
1000 time units — far beyond the documented 10-unit budget. -/
def wSlow : World := fun args =>
  if args = ["ls"] then some ⟨"slow-out", "", 0, 1000⟩ else none

/-- A world in which `ls` exists, prints nothing, writes `boom` to its
standard error and exits with status 2. -/
def wErr : World := fun args =>
  if args = ["ls"] then some ⟨"", "boom", 2, 1⟩ else none

set_option maxRecDepth 4096

/-- The clamp `max(0.0, min(1.0, helpfulness))` applied by
`record_tool_reliability` before adding to `helpfulness_sum`. -/
def clamp01 (h : ℚ) : ℚ := max 0 (min 1 h)

/-- Per-tool global statistics, the dict initialized by
`record_tool_reliability` for a new tool name. -/
structure ToolStats where
  calls : Nat
  success_count : Nat
  helpfulness_sum : ℚ
  notes : List String
deriving Repr, DecidableEq

/-- The zero-initialized global statistics dict. -/
def emptyToolStats : ToolStats := ⟨0, 0, 0, []⟩

/-- Per-tool per-goal statistics (the per-goal dict has no `notes` field). -/
structure GoalToolStats where
  calls : Nat
  success_count : Nat
  helpfulness_sum : ℚ
deriving Repr, DecidableEq

/-- The zero-initialized per-goal statistics dict. -/
def emptyGoalToolStats : GoalToolStats := ⟨0, 0, 0⟩

/-- Python dict lookup `d[k]` / `k in d`, on an insertion-ordered
association list. -/
def dget {α : Type} (d : List (String × α)) (k : String) : Option α :=
  (d.find? (fun e => e.1 = k)).map (fun e => e.2)

/-- Python dict assignment `d[k] = v`: overwrite in place, or append for a
new key. -/
def dset {α : Type} : List (String × α) → String → α → List (String × α)
  | [], k, v => [(k, v)]
  | e :: rest, k, v =>
      if e.1 = k then (k, v) :: rest else e :: dset rest k v

/-- The reliability store `{"global": ..., "per_goal": ...}` from
`agent/tools/reliability.py`. -/
structure ReliabilityData where
  global : List (String × ToolStats)
  per_goal : List (String × List (String × GoalToolStats))
deriving Repr, DecidableEq

/-- `record_tool_reliability` from `agent/tools/reliability.py`, restricted
to its effect on the stored data (the human-readable summary string it
returns and the JSON file round-trip are not modeled).  An empty `tool_name`
returns early with an error message, leaving the data unchanged; otherwise
the global stats for the tool are initialized if absent and updated, and,
when a goal id is given, the per-goal stats likewise. -/
def record_tool_reliability (data : ReliabilityData) (tool_name : String)
    (goal_id : Option Int) (success : Bool) (helpfulness : ℚ)
    (notes : String) : ReliabilityData :=
  if tool_name = "" then data
  else
    let g0 := (dget data.global tool_name).getD emptyToolStats
    let g1 : ToolStats :=
      { calls := g0.calls + 1
        success_count := g0.success_count + (if success then 1 else 0)
        helpfulness_sum := g0.helpfulness_sum + clamp01 helpfulness
        notes := if notes ≠ "" then g0.notes ++ [notes] else g0.notes }
    let data1 : ReliabilityData :=
      { data with global := dset data.global tool_name g1 }
    match goal_id with
    | none => data1
    | some gid =>
        let goal_key := toString gid
        let goalMap := (dget data1.per_goal goal_key).getD []
        let p0 := (dget goalMap tool_name).getD emptyGoalToolStats
        let p1 : GoalToolStats :=
          { calls := p0.calls + 1
            success_count := p0.success_count + (if success then 1 else 0)
            helpfulness_sum := p0.helpfulness_sum + clamp01 helpfulness }
        { data1 with
          per_goal := dset data1.per_goal goal_key (dset goalMap tool_name p1) }

/-- The global `helpfulness_sum` stored for a tool (0 when absent). -/
def globalHelpSum (data : ReliabilityData) (tool : String) : ℚ :=
  ((dget data.global tool).getD emptyToolStats).helpfulness_sum

/-- The per-goal `helpfulness_sum` stored for a tool under a goal key
(0 when absent). -/
def goalHelpSum (data : ReliabilityData) (gid : Int) (tool : String) : ℚ :=
  ((dget ((dget data.per_goal (toString gid)).getD []) tool).getD
    emptyGoalToolStats).helpfulness_sum

/-- `allowed_paths` from `write_memory_file` in `agent/tools/memory.py`. -/
def allowed_paths : List String :=
  ["notes.md", "goals.json", "tool-reliability.json", "llm-calls.log.jsonl"]

/-- File-open mode chosen by `write_memory_file`. -/
inductive WMode where
  | append : WMode
  | write : WMode
deriving Repr, DecidableEq

/-- One completed file write: the file opened, the mode, the content. -/
structure WriteEvent where
  file : String
  mode : WMode
  content : String
deriving Repr, DecidableEq

/-- The filesystem world for `write_memory_file`: for a file and mode,
`some msg` means opening or writing raises an exception with message `msg`,
`none` means the write succeeds. -/
def FsWorld : Type := String → WMode → Option String

/-- `write_memory_file(path, content)` from `agent/tools/memory.py`: reject
any path outside `allowed_paths` with a security error before touching the
filesystem; otherwise open `memory/<path>` (append mode for `notes.md`,
write mode otherwise) and write, turning an exception into a
`"Write error: ..."` message.  The second component is the list of completed
writes. -/
def write_memory_file (fs : FsWorld) (path content : String) :
    String × List WriteEvent :=
  if ¬ (path ∈ allowed_paths) then
    ("Security error: Cannot write to " ++ path, [])
  else
    let mode := if path = "notes.md" then WMode.append else WMode.write
    match fs ("memory/" ++ path) mode with
    | some e => ("Write error: " ++ e, [])
    | none =>
        ("Wrote to memory/" ++ path ++ " successfully",
         [⟨"memory/" ++ path, mode, content⟩])

/-- A filesystem world in which every write succeeds. -/
def fsOk : FsWorld := fun _ _ => none

/-- A pipeline stage (argument vector) that passes the whitelist check of
`run_pipeline`: nonempty, with its stripped first token starting with some
allowed entry. -/
def stageAllowed : List String → Prop
  | [] => False
  | a0 :: _ => ALLOWED_PREFIXES.any (fun p => pyStartsWith (pyStrip a0) p) = true

instance : DecidablePred stageAllowed := by
  intro args
  cases args with
  | nil => exact inferInstanceAs (Decidable False)
  | cons a0 rest => exact inferInstanceAs (Decidable (_ = true))

/-- Claim C2: the per-stage whitelist validation of `run_pipeline` checks only
the program token, not the full stage text, so even though the full text
`"git status"` starts with the whitelist entry `"git status"` (and
`run_safe_shell`'s own full-text check accepts it), `run_pipeline` rejects the
stage because the bare token `"git"` starts with no whitelist entry: the
command is refused with `ValueError("Command 'git' is not allowed")`, no
process is spawned, and the caller receives an unexpected-error message. -/
theorem git_status_rejected_by_stage_validation :
    pyStartsWith (pyStrip "git status") "git status" = true ∧
    ALLOWED_PREFIXES.any (fun p => pyStartsWith (pyStrip "git") p) = false ∧
    run_pipeline wLs "git status" =
      (.error (.valueError "Command 'git' is not allowed"), []) ∧
    run_safe_shell wLs "git status" =
      (.ok "Unexpected shell error: Command 'git' is not allowed", []) := by
  refine ⟨by decide, by decide, by decide, by decide⟩

/-- Claim C5: on input with an unterminated quote, `run_safe_shell` does not
return a structured failure string: the `ValueError` raised by `shlex.split`
on the `first_word` line (which sits before the `try` block) escapes the
function uncaught. -/
theorem unterminated_quote_raises_uncaught_valueError :
    shlexSplit "echo \"ab" = .error "No closing quotation" ∧
    run_safe_shell wEmpty "echo \"ab" =
      (.error (.valueError "No closing quotation"), []) := by
  refine ⟨by decide, by decide⟩

/-- Claim C6: an empty or whitespace-only command makes `run_safe_shell`
return the malformed-command failure string `"Error: empty command"`, with no
process spawned, in every process world. -/
theorem empty_command_returns_error_without_spawning (w : World) (cmd : String)
    (h : pyStrip cmd = "") :
    run_safe_shell w cmd = (.ok "Error: empty command", []) := by
  unfold run_safe_shell
  rw [h]
  simp

/-- Witness for C6 at the whitespace-only input `"   "`. -/
theorem empty_command_returns_error_without_spawning_witness :
    run_safe_shell wEmpty "   " = (.ok "Error: empty command", []) :=
  empty_command_returns_error_without_spawning wEmpty "   " (by decide)

/-- Claim C10: `write_memory_file` refuses every path that is not one of the
four whitelisted file names, returning the security-error message and opening
or writing no file, in every filesystem world. -/
theorem write_memory_file_rejects_non_whitelisted_paths (fs : FsWorld)
    (path content : String) (h : path ∉ allowed_paths) :
    write_memory_file fs path content =
      ("Security error: Cannot write to " ++ path, []) := by
  unfold write_memory_file
  rw [if_pos h]

/-- Witness for C10 at the traversal path `"../x"`. -/
theorem write_memory_file_rejects_non_whitelisted_paths_witness :
    write_memory_file fsOk "../x" "owned" =
      ("Security error: Cannot write to ../x", []) :=
  write_memory_file_rejects_non_whitelisted_paths fsOk "../x" "owned" (by decide)

/-- The spawn trace of `run_pipeline` is the spawn trace of its loop. -/
lemma run_pipeline_trace (w : World) (cmd : String) :
    (run_pipeline w cmd).2 =
      (spawnLoop w ((pySplitPipe cmd).map pyStrip) [] []).2 := by
  unfold run_pipeline
  rcases hsl : spawnLoop w ((pySplitPipe cmd).map pyStrip) [] [] with ⟨r, trace⟩
  cases r with
  | error e => simp [hsl]
  | ok procs =>
      simp only [hsl]
      cases firstFailing procs <;> simp

/-- Loop invariant: every argument vector in the spawn trace produced by
`spawnLoop` passed the whitelist check, provided every vector already in the
accumulator did. -/
lemma spawnLoop_trace_validated (w : World) :
    ∀ (parts : List String) (procs : List Proc) (trace : List (List String)),
      (∀ p ∈ trace, stageAllowed p) →
      ∀ q ∈ (spawnLoop w parts procs trace).2, stageAllowed q := by
  intro parts
  induction parts with
  | nil => intro procs trace h q hq; exact h q hq
  | cons part rest ih =>
      intro procs trace h q hq
      rcases hsp : shlexSplit part with m | args
      · simp only [spawnLoop, hsp] at hq
        exact h q hq
      · cases args with
        | nil =>
            simp only [spawnLoop, hsp] at hq
            exact ih procs trace h q hq
        | cons a0 args =>
            by_cases hA : ALLOWED_PREFIXES.any (fun p => pyStartsWith (pyStrip a0) p) = true
            · rcases hw : w (a0 :: args) with _ | sp
              · simp only [spawnLoop, hsp, if_pos hA, hw] at hq
                exact h q hq
              · simp only [spawnLoop, hsp, if_pos hA, hw] at hq
                refine ih _ _ ?_ q hq
                intro p hp
                rcases List.mem_append.mp hp with hp | hp
                · exact h p hp
                · rcases List.mem_singleton.mp hp with rfl
                  exact hA
            · simp only [spawnLoop, hsp, if_neg hA] at hq
              exact h q hq

/-- A pipe segment that the spawn loop gets past without raising: it either
tokenizes to no arguments (and is skipped), or tokenizes to an argument
vector whose head passes the whitelist check and whose program exists in the
world (so its spawn succeeds). -/
def partOk (w : World) (part : String) : Prop :=
  shlexSplit part = .ok [] ∨
  ∃ a0 args, shlexSplit part = .ok (a0 :: args) ∧
    (ALLOWED_PREFIXES.any fun p => pyStartsWith (pyStrip a0) p) = true ∧
    w (a0 :: args) ≠ none

/-- When every segment before `bad` is skipped or validated-and-spawned, and
`bad` tokenizes to a program failing the whitelist check, the spawn loop
raises the policy-violation `ValueError` naming that program. -/
lemma spawnLoop_policy_error (w : World) :
    ∀ (pre : List String) (bad : String) (rest : List String)
      (procs : List Proc) (trace : List (List String)) (b0 : String)
      (bargs : List String),
      (∀ part ∈ pre, partOk w part) →
      shlexSplit bad = .ok (b0 :: bargs) →
      (ALLOWED_PREFIXES.any fun p => pyStartsWith (pyStrip b0) p) = false →
      (spawnLoop w (pre ++ bad :: rest) procs trace).1 =
        .error (.valueError ("Command '" ++ b0 ++ "' is not allowed")) := by
  intro pre
  induction pre with
  | nil =>
      intro bad rest procs trace b0 bargs _ hbad hfail
      simp only [List.nil_append, spawnLoop, hbad,
        if_neg (by simp [hfail] : ¬((ALLOWED_PREFIXES.any
          fun p => pyStartsWith (pyStrip b0) p) = true))]
  | cons part pre ih =>
      intro bad rest procs trace b0 bargs hpre hbad hfail
      rcases hpre part (List.mem_cons_self part pre) with hskip | ⟨a0, args, hsp, hA, hw⟩
      · rw [List.cons_append]
        simp only [spawnLoop, hskip]
        exact ih bad rest procs trace b0 bargs
          (fun p hp => hpre p (List.mem_cons_of_mem part hp)) hbad hfail
      · rcases hww : w (a0 :: args) with _ | sp
        · exact absurd hww hw
        · rw [List.cons_append]
          simp only [spawnLoop, hsp, if_pos hA, hww]
          exact ih bad rest _ _ b0 bargs
            (fun p hp => hpre p (List.mem_cons_of_mem part hp)) hbad hfail

/-- An exception raised in the spawn loop propagates out of `run_pipeline`. -/
lemma run_pipeline_error_fst (w : World) (cmd : String) (e : PyErr)
    (h : (spawnLoop w ((pySplitPipe cmd).map pyStrip) [] []).1 = .error e) :
    (run_pipeline w cmd).1 = .error e := by
  unfold run_pipeline
  rcases hsl : spawnLoop w ((pySplitPipe cmd).map pyStrip) [] [] with ⟨r, trace⟩
  rw [hsl] at h
  cases r with
  | error e2 => simp only [hsl]; simpa using h
  | ok procs => exact absurd h (by simp)

/-- Claim C1 (amended): validation in `run_pipeline` is per stage, immediately
before that stage's spawn.  First conjunct: every process ever spawned is for
a stage that passed whitelist validation.  Second conjunct: when a stage's
program fails the whitelist check and every earlier segment was either
dropped as blank or validated and spawned successfully, `run_pipeline` raises
the policy-violation `ValueError` naming that program (an earlier stage's
tokenization error or spawn failure would instead preempt the check, and the
processes of earlier stages are already spawned). -/
theorem run_pipeline_spawned_stages_passed_validation :
    (∀ (w : World) (cmd : String) (q : List String),
        q ∈ (run_pipeline w cmd).2 → stageAllowed q) ∧
    (∀ (w : World) (cmd : String) (pre : List String) (bad : String)
        (rest : List String) (b0 : String) (bargs : List String),
        (pySplitPipe cmd).map pyStrip = pre ++ bad :: rest →
        (∀ part ∈ pre, partOk w part) →
        shlexSplit bad = .ok (b0 :: bargs) →
        (ALLOWED_PREFIXES.any fun p => pyStartsWith (pyStrip b0) p) = false →
        (run_pipeline w cmd).1 =
          .error (.valueError ("Command '" ++ b0 ++ "' is not allowed"))) := by
  constructor
  · intro w cmd q hq
    rw [run_pipeline_trace] at hq
    exact spawnLoop_trace_validated w _ [] [] (by intro p hp; cases hp) q hq
  · intro w cmd pre bad rest b0 bargs hparts hpre hbad hfail
    refine run_pipeline_error_fst w cmd _ ?_
    rw [hparts]
    exact spawnLoop_policy_error w pre bad rest [] [] b0 bargs hpre hbad hfail

/-- Witness for the amended C1 on `"ls | evil"` in the world `wLs`: the
spawned stage `["ls"]` had passed validation, and since the first segment
validated and spawned while `evil` fails the whitelist check, the
policy-violation `ValueError` for `evil` is raised. -/
theorem run_pipeline_spawned_stages_passed_validation_witness :
    stageAllowed ["ls"] ∧
    (run_pipeline wLs "ls | evil").1 =
      .error (.valueError "Command 'evil' is not allowed") :=
  ⟨run_pipeline_spawned_stages_passed_validation.1 wLs "ls | evil" ["ls"]
      (by decide),
   run_pipeline_spawned_stages_passed_validation.2 wLs "ls | evil" ["ls"]
      "evil" [] "evil" [] (by decide)
      (by
        intro part hp
        rcases List.mem_singleton.mp hp with rfl
        exact Or.inr ⟨"ls", [], by decide, by decide, by decide⟩)
      (by decide) (by decide)⟩

/-- Counterexample to C1 as stated: on `"ls | evil"` the policy-violation
`ValueError` is raised for the second stage, yet the first stage's process
has already been spawned — validation of all stages does not precede the
first spawn. -/
theorem run_pipeline_spawns_stage_before_late_validation_failure :
    run_pipeline wLs "ls | evil" =
      (.error (.valueError "Command 'evil' is not allowed"), [["ls"]]) := by
  decide

/-- `TimeoutExpired` detector on a Python exception. -/
def errIsTimeout : PyErr → Bool
  | .timeoutExpired _ => true
  | _ => false

/-- `TimeoutExpired` detector on an execution outcome. -/
def resIsTimeout {α : Type} : Except PyErr α → Bool
  | .error e => errIsTimeout e
  | .ok _ => false

/-- The spawn loop never raises `TimeoutExpired`: `communicate()` is called
without a timeout argument. -/
lemma spawnLoop_no_timeout (w : World) :
    ∀ (parts : List String) (procs : List Proc) (trace : List (List String)),
      resIsTimeout (spawnLoop w parts procs trace).1 = false := by
  intro parts
  induction parts with
  | nil => intro procs trace; rfl
  | cons part rest ih =>
      intro procs trace
      rcases hsp : shlexSplit part with m | args
      · simp only [spawnLoop, hsp]
        rfl
      · cases args with
        | nil =>
            simp only [spawnLoop, hsp]
            exact ih procs trace
        | cons a0 args =>
            by_cases hA : ALLOWED_PREFIXES.any (fun p => pyStartsWith (pyStrip a0) p) = true
            · rcases hw : w (a0 :: args) with _ | sp
              · simp only [spawnLoop, hsp, if_pos hA, hw]
                rfl
              · simp only [spawnLoop, hsp, if_pos hA, hw]
                exact ih _ _
            · simp only [spawnLoop, hsp, if_neg hA]
              rfl

/-- Claim C3 (refuted): `run_pipeline` can never report a timeout, in any
process world and for any command — the `TimeoutExpired` handler of
`run_safe_shell` is dead code.  A stage running for 1000 time units (which
`communicate(timeout=10)` would have interrupted, as `communicateWouldTimeout`
shows) completes normally and its output is returned. -/
theorem run_pipeline_never_times_out :
    (∀ (w : World) (cmd : String),
        resIsTimeout (run_pipeline w cmd).1 = false) ∧
    communicateWouldTimeout 10 (ProcSpec.mk "slow-out" "" 0 1000) = true ∧
    run_safe_shell wSlow "ls" = (.ok "output: slow-out\n", [["ls"]]) := by
  refine ⟨?_, by decide, by decide⟩
  intro w cmd
  have hnt := spawnLoop_no_timeout w ((pySplitPipe cmd).map pyStrip) [] []
  unfold run_pipeline
  rcases hsl : spawnLoop w ((pySplitPipe cmd).map pyStrip) [] [] with ⟨r, trace⟩
  rw [hsl] at hnt
  cases r with
  | error e => simp only [hsl]; exact hnt
  | ok procs =>
      simp only [hsl]
      cases hff : firstFailing procs <;> rfl

/-- Output aggregation restricted to standard output: the fold that remains
once the dead standard-error branch is removed. -/
def stdoutOnly (procs : List Proc) : String :=
  procs.foldl (fun output p =>
    if p.spec.stdout ≠ "" then output ++ p.spec.stdout else output) ""

/-- Claim C4 (refuted): stage standard error is never part of the result.
The aggregation of `run_pipeline` collapses to a stdout-only fold (its
`"Error: "` branch is unreachable because `Popen` is called without
`stderr=PIPE`, so `communicate()` returns `None` for stderr), and a stage
that exits with status 2 writing `boom` to standard error produces the
failure string `"Execution error:\nNone"` — the captured error text, the
`"Error:"` markers and the failing stage's identity all absent. -/
theorem stage_stderr_never_captured :
    (∀ procs : List Proc, aggregateOutput procs = stdoutOnly procs) ∧
    run_safe_shell wErr "ls" = (.ok "Execution error:\nNone", [["ls"]]) := by
  exact ⟨fun _ => rfl, by decide⟩

/-- A segment that tokenizes to no arguments is skipped by the spawn loop. -/
lemma spawnLoop_skips_empty_segment (w : World) (part : String)
    (rest : List String) (procs : List Proc) (trace : List (List String))
    (h : shlexSplit part = .ok []) :
    spawnLoop w (part :: rest) procs trace = spawnLoop w rest procs trace := by
  simp only [spawnLoop, h]

/-- If every remaining segment tokenizes to no arguments, the spawn loop
finishes successfully with its accumulators unchanged. -/
lemma spawnLoop_all_empty (w : World) :
    ∀ (parts : List String) (procs : List Proc) (trace : List (List String)),
      (∀ part ∈ parts, shlexSplit part = .ok []) →
      spawnLoop w parts procs trace = (.ok procs, trace) := by
  intro parts
  induction parts with
  | nil => intro procs trace _; rfl
  | cons part rest ih =>
      intro procs trace h
      rw [spawnLoop_skips_empty_segment w part rest procs trace
        (h part (List.mem_cons_self part rest))]
      exact ih procs trace (fun p hp => h p (List.mem_cons_of_mem part hp))

/-- Claim C8 (amended): segments that tokenize to an empty token list are
dropped by the loop of `run_pipeline` before validation; but when every
segment is dropped, `run_pipeline` does not fail with a malformed-command
error — it succeeds with empty output and no spawned process. -/
theorem empty_segments_dropped_and_all_blank_yields_success :
    (∀ (w : World) (part : String) (rest : List String) (procs : List Proc)
        (trace : List (List String)), shlexSplit part = .ok [] →
        spawnLoop w (part :: rest) procs trace = spawnLoop w rest procs trace) ∧
    (∀ (w : World) (cmd : String),
        (∀ part ∈ (pySplitPipe cmd).map pyStrip, shlexSplit part = .ok []) →
        run_pipeline w cmd = (.ok "", [])) := by
  refine ⟨spawnLoop_skips_empty_segment, ?_⟩
  intro w cmd h
  simp only [run_pipeline, spawnLoop_all_empty w ((pySplitPipe cmd).map pyStrip) [] [] h]
  rfl

/-- Witness for the amended C8: the blank leading segment of `"| ls"` is
dropped (the loop continues as if it were absent), and on `"|"`, whose two
segments are both blank, `run_pipeline` returns success with empty output. -/
theorem empty_segments_dropped_and_all_blank_yields_success_witness :
    spawnLoop wLs ["", "ls"] [] [] = spawnLoop wLs ["ls"] [] [] ∧
    run_pipeline wEmpty "|" = (.ok "", []) :=
  ⟨empty_segments_dropped_and_all_blank_yields_success.1 wLs "" ["ls"] [] []
      (by decide),
   empty_segments_dropped_and_all_blank_yields_success.2 wEmpty "|"
      (by decide)⟩

/-- Counterexample to C8 as stated: on `"||"` every segment is blank and is
dropped, yet `run_pipeline` does not fail with the malformed-command error —
it succeeds with empty output. -/
theorem run_pipeline_all_blank_segments_succeeds :
    run_pipeline wLs "||" = (.ok "", []) := by decide

/-- Inside a double quote, characters that are neither a double quote nor a
backslash are appended verbatim to the token being built. -/
lemma shlexCore_quo_plain :
    ∀ (cs rest cur : List Char) (toks : List String),
      (∀ c ∈ cs, c ≠ '"' ∧ c ≠ '\\') →
      shlexCore (cs ++ rest) (.quo '"') true cur toks =
        shlexCore rest (.quo '"') true (cur ++ cs) toks := by
  intro cs
  induction cs with
  | nil => intro rest cur toks _; simp
  | cons c cs ih =>
      intro rest cur toks h
      obtain ⟨hq, hb⟩ := h c (List.mem_cons_self c cs)
      have step : shlexCore ((c :: cs) ++ rest) (.quo '"') true cur toks =
          shlexCore (cs ++ rest) (.quo '"') true (cur ++ [c]) toks := by
        rw [List.cons_append, shlexCore]
        rw [if_neg hq, if_neg]
        simp only [Bool.and_eq_true, decide_eq_true_eq, not_and]
        intro _
        exact hb
      rw [step, ih rest (cur ++ [c]) toks
        (fun d hd => h d (List.mem_cons_of_mem c hd))]
      simp

/-- Claim C7: stage tokenization is shell-style quote-aware.  Wrapping any
string free of double quotes and backslashes in double quotes yields exactly
that string as a single token (quotes stripped, internal whitespace
preserved); in particular `echo "a b"` tokenizes to `["echo", "a b"]`,
unquoted tokens are whitespace-delimited, and single quotes behave the same
way. -/
theorem shlex_tokenization_quote_aware (s : String)
    (hs : ∀ c ∈ s.data, c ≠ '"' ∧ c ≠ '\\') :
    shlexSplit ("\"" ++ s ++ "\"") = .ok [s] ∧
    shlexSplit "echo \"a b\"" = .ok ["echo", "a b"] ∧
    shlexSplit "ls   -la" = .ok ["ls", "-la"] ∧
    shlexSplit "cat 'x  y' z" = .ok ["cat", "x  y", "z"] := by
  refine ⟨?_, by decide, by decide, by decide⟩
  have hdata : ("\"" ++ s ++ "\"").data = '"' :: (s.data ++ ['"']) := by
    simp [String.data_append]
  unfold shlexSplit
  rw [hdata]
  have start : shlexCore ('"' :: (s.data ++ ['"'])) .out false [] [] =
      shlexCore (s.data ++ ['"']) (.quo '"') true [] [] := by
    simp [shlexCore, shlexIsWS]
  rw [start, shlexCore_quo_plain s.data ['"'] [] [] hs]
  simp [shlexCore]
  rfl

/-- Witness for C7 at the quoted phrase `"a b"`. -/
theorem shlex_tokenization_quote_aware_witness :
    shlexSplit ("\"" ++ "a b" ++ "\"") = .ok ["a b"] ∧
    shlexSplit "echo \"a b\"" = .ok ["echo", "a b"] ∧
    shlexSplit "ls   -la" = .ok ["ls", "-la"] ∧
    shlexSplit "cat 'x  y' z" = .ok ["cat", "x  y", "z"] :=
  shlex_tokenization_quote_aware "a b" (by decide)

/-- Looking up a key just assigned returns the assigned value. -/
lemma dget_dset {α : Type} (d : List (String × α)) (k : String) (v : α) :
    dget (dset d k v) k = some v := by
  induction d with
  | nil => simp [dget, dset, List.find?]
  | cons e rest ih =>
      by_cases he : e.1 = k
      · simp [dget, dset, he, List.find?]
      · simp only [dset, if_neg he]
        simp only [dget, List.find?] at ih ⊢
        rw [show decide (e.1 = k) = false from decide_eq_false he]
        exact ih

/-- The clamp has the closed form of a two-sided cutoff. -/
lemma clamp01_eq_ite (x : ℚ) :
    clamp01 x = if x < 0 then 0 else if 1 < x then 1 else x := by
  unfold clamp01
  rcases lt_or_le x 0 with hx | hx
  · rw [if_pos hx, max_eq_left]
    exact le_trans (min_le_right 1 x) (le_of_lt hx)
  · rw [if_neg (not_lt.mpr hx)]
    rcases lt_or_le 1 x with h1 | h1
    · rw [if_pos h1, min_eq_left (le_of_lt h1), max_eq_right zero_le_one]
    · rw [if_neg (not_lt.mpr h1), min_eq_right h1, max_eq_right hx]

/-- Claim C9: for every helpfulness value, `record_tool_reliability` adds
exactly `max(0, min(1, helpfulness))` to the stored `helpfulness_sum`, both
in the global statistics and in the per-goal statistics; this added score
always lies in `[0, 1]` and is the two-sided clamp of the input (inputs
below 0 recorded as 0, inputs above 1 recorded as 1, in-range inputs
unchanged). -/
theorem record_tool_reliability_clamps_helpfulness (data : ReliabilityData)
    (tool : String) (gid : Int) (succ : Bool) (h : ℚ) (notes : String)
    (ht : tool ≠ "") :
    globalHelpSum (record_tool_reliability data tool (some gid) succ h notes)
        tool = globalHelpSum data tool + clamp01 h ∧
    goalHelpSum (record_tool_reliability data tool (some gid) succ h notes)
        gid tool = goalHelpSum data gid tool + clamp01 h ∧
    0 ≤ clamp01 h ∧ clamp01 h ≤ 1 ∧
    clamp01 h = if h < 0 then 0 else if 1 < h then 1 else h := by
  refine ⟨?_, ?_, le_max_left 0 _,
    max_le zero_le_one (min_le_left 1 h), clamp01_eq_ite h⟩
  · unfold record_tool_reliability globalHelpSum
    rw [if_neg ht]
    simp [dget_dset]
  · unfold record_tool_reliability goalHelpSum
    rw [if_neg ht]
    simp [dget_dset]

/-- Witness for C9: recording helpfulness 2 for tool `t` under goal 3 into
an empty store adds the clamped score 1 to both sums. -/
theorem record_tool_reliability_clamps_helpfulness_witness :
    globalHelpSum (record_tool_reliability ⟨[], []⟩ "t" (some 3) true 2 "")
        "t" = globalHelpSum ⟨[], []⟩ "t" + clamp01 2 ∧
    goalHelpSum (record_tool_reliability ⟨[], []⟩ "t" (some 3) true 2 "")
        3 "t" = goalHelpSum ⟨[], []⟩ 3 "t" + clamp01 2 ∧
    0 ≤ clamp01 2 ∧ clamp01 2 ≤ 1 ∧
    clamp01 2 = if (2 : ℚ) < 0 then 0 else if (1 : ℚ) < 2 then 1 else 2 :=
  record_tool_reliability_clamps_helpfulness ⟨[], []⟩ "t" 3 true 2 ""
    (by decide)
